import Mathlib

/-!
# Verification of the asteroids simulation core

Shallow embedding of the simulation core of the `asteroids-projet` repository
(`src/asteroid.rs`, `src/spaceship.rs`, `src/missile.rs`, `src/bonus.rs`,
`src/main.rs`) and proofs about it.

Modelling conventions:
* `f32`/`f64` values are modelled as real numbers (`ℝ`); `u8` counters as `ℕ`
  (`u8::saturating_sub` is `Nat.sub`); the `i32` level counter as `ℤ`.
* `glam`'s `Vec2` is a structure of two reals; `length` is `Real.sqrt` of the
  sum of squares and `normalize` multiplies by the reciprocal of the length,
  exactly as `glam` computes it.  In Lean `1/0 = 0`, so `normalize 0 = 0` in
  the total model; the genuinely non-finite (NaN) behaviour of normalizing the
  zero vector is analysed separately with an `Option`-valued variant.
* Randomness (`thread_rng`, `rand::gen_range`) is modelled by threading the
  drawn values in explicitly, as parameters or streams.
* Screen extents (`screen_width()`, `screen_height()`) are parameters `w h`.
-/

namespace Asteroids

/-- 2D vector, modelling `glam::Vec2` (two `f32` components). -/
@[ext] structure Vec2 where
  x : ℝ
  y : ℝ

namespace Vec2

noncomputable instance : DecidableEq Vec2 := Classical.decEq _

instance : Add Vec2 := ⟨fun a b => ⟨a.x + b.x, a.y + b.y⟩⟩
instance : Sub Vec2 := ⟨fun a b => ⟨a.x - b.x, a.y - b.y⟩⟩
instance : SMul ℝ Vec2 := ⟨fun c v => ⟨c * v.x, c * v.y⟩⟩
instance : Zero Vec2 := ⟨⟨0, 0⟩⟩

@[simp] lemma add_def (a b : Vec2) : a + b = ⟨a.x + b.x, a.y + b.y⟩ := rfl
@[simp] lemma sub_def (a b : Vec2) : a - b = ⟨a.x - b.x, a.y - b.y⟩ := rfl
@[simp] lemma smul_def (c : ℝ) (v : Vec2) : c • v = ⟨c * v.x, c * v.y⟩ := rfl
@[simp] lemma zero_def : (0 : Vec2) = ⟨0, 0⟩ := rfl

/-- `Vec2::dot`. -/
def dot (a b : Vec2) : ℝ := a.x * b.x + a.y * b.y

/-- `Vec2::length`: the euclidean norm, `sqrt (x² + y²)`. -/
noncomputable def length (v : Vec2) : ℝ := Real.sqrt (v.x * v.x + v.y * v.y)

/-- `Vec2::distance`: length of the difference. -/
noncomputable def dist (a b : Vec2) : ℝ := length (a - b)

/-- `Vec2::normalize`: `self * (1 / length)` (glam multiplies by the
reciprocal of the length).  For the zero vector the real code produces
non-finite components; in this total model `1/0 = 0` so `normalize 0 = 0`. -/
noncomputable def normalize (v : Vec2) : Vec2 := (1 / length v) • v

/-- Option-valued normalization: `none` models the non-finite (NaN)
components that `glam`'s unguarded `normalize` produces on a zero-length
vector. -/
noncomputable def normalizeOpt (v : Vec2) : Option Vec2 :=
  if v = 0 then none else some (normalize v)

lemma length_nonneg (v : Vec2) : 0 ≤ length v := Real.sqrt_nonneg _

lemma length_eq_zero_iff (v : Vec2) : length v = 0 ↔ v = 0 := by
  unfold length
  constructor
  · intro h
    have hsum : v.x * v.x + v.y * v.y = 0 := by
      have h0 : 0 ≤ v.x * v.x + v.y * v.y :=
        add_nonneg (mul_self_nonneg _) (mul_self_nonneg _)
      have := Real.sqrt_eq_zero h0 |>.mp h
      exact this
    have hx : v.x = 0 := by nlinarith [sq_nonneg v.x, sq_nonneg v.y]
    have hy : v.y = 0 := by nlinarith [sq_nonneg v.x, sq_nonneg v.y]
    cases v
    simp_all
  · intro h; subst h; simp

lemma length_smul (c : ℝ) (v : Vec2) : length (c • v) = |c| * length v := by
  unfold length
  simp only [smul_def]
  rw [show c * v.x * (c * v.x) + c * v.y * (c * v.y)
        = (c * c) * (v.x * v.x + v.y * v.y) by ring]
  rw [Real.sqrt_mul (mul_self_nonneg c), Real.sqrt_mul_self_eq_abs]

lemma length_normalize (v : Vec2) (hv : v ≠ 0) : length (normalize v) = 1 := by
  unfold normalize
  rw [length_smul]
  have hl : length v ≠ 0 := fun h => hv ((length_eq_zero_iff v).mp h)
  have hpos : 0 < length v := lt_of_le_of_ne (length_nonneg v) (Ne.symm hl)
  rw [abs_of_pos (by positivity : (0:ℝ) < 1 / length v)]
  field_simp

/-- Length of a vector lying on the x-axis. -/
lemma length_axis (a : ℝ) : length ⟨a, 0⟩ = |a| := by
  unfold length
  simpa using Real.sqrt_mul_self_eq_abs a

/-- Distance between two points on the x-axis. -/
lemma dist_axis (a c : ℝ) : dist ⟨a, 0⟩ ⟨c, 0⟩ = |a - c| := by
  unfold dist
  simpa using length_axis (a - c)

lemma dist_345 : dist ⟨0, 0⟩ ⟨3, 4⟩ = 5 := by
  unfold dist length
  norm_num
  rw [show (25:ℝ) = 5 ^ 2 by norm_num, Real.sqrt_sq (by norm_num : (0:ℝ) ≤ 5)]

end Vec2

/-! ## `src/asteroid.rs` -/

/-- `Asteroid` (src/asteroid.rs).  `taille` and `resistance` are `u8` in the
source, modelled as `ℕ`. -/
structure Asteroid where
  position : Vec2
  speed : Vec2
  speed_min : Vec2
  taille : ℕ
  resistance : ℕ

namespace Asteroid

/-- `Asteroid::ASTEROID_INIT_SIZE`. -/
def ASTEROID_INIT_SIZE : ℝ := 60.0

/-- `Asteroid::nouvel_asteroid(taille, position)`.  The random speed drawn by
`new_alea_speed()` is threaded in as the explicit parameter `vitesse`; it is
stored both as `speed` and `speed_min`, exactly as in the source. -/
def nouvel_asteroid (taille : ℕ) (position : Vec2) (vitesse : Vec2) : Asteroid :=
  { position := position
    speed := vitesse
    speed_min := vitesse
    taille := taille
    resistance :=
      match taille with
      | 1 => 1
      | 2 => 3
      | 3 => 5
      | _ => 1 }

/-- `Asteroid::diminuer_resistance`: decrement `resistance`, guarded so it
never goes below 0. -/
def diminuer_resistance (a : Asteroid) : Asteroid :=
  if a.resistance > 0 then { a with resistance := a.resistance - 1 } else a

/-- `Asteroid::est_detruit`. -/
def est_detruit (a : Asteroid) : Prop := a.resistance = 0

instance (a : Asteroid) : Decidable a.est_detruit := by
  unfold est_detruit; infer_instance

/-- `Asteroid::bound_to` (src/asteroid.rs lines 177-185). -/
noncomputable def bound_to (coord : ℝ) (max : ℝ) : ℝ :=
  if coord < 0 then max - coord
  else if coord > max then coord - max
  else coord

/-- `Asteroid::bound_pos`, with the screen extents `w h` as parameters. -/
noncomputable def bound_pos (w h : ℝ) (pos : Vec2) : Vec2 :=
  ⟨bound_to pos.x w, bound_to pos.y h⟩

/-- `Asteroid::move_object`: add the speed to the position, then wrap. -/
noncomputable def move_object (w h : ℝ) (a : Asteroid) : Asteroid :=
  { a with position := bound_pos w h (a.position + a.speed) }

/-- `Asteroid::nouvelle_vitesse`. -/
def nouvelle_vitesse (a : Asteroid) (nv_vitesse : Vec2) : Asteroid :=
  { a with speed := nv_vitesse }

/-- `Asteroid::appliquer_resistance` (src/asteroid.rs lines 112-122): if the
speed exceeds the minimum speed, multiply it by the friction factor 0.98; the
inner floor check assigns `self.speed = self.speed`, which is translated
literally (both branches return the same value). -/
noncomputable def appliquer_resistance (a : Asteroid) : Asteroid :=
  let effet_friction : ℝ := 0.98
  if a.speed.length > a.speed_min.length then
    let speed' := effet_friction • a.speed
    if speed'.length < a.speed_min.length then { a with speed := speed' }
    else { a with speed := speed' }
  else a

/-- `Asteroid::rayon_asteroid`. -/
noncomputable def rayon_asteroid (a : Asteroid) : ℝ :=
  match a.taille with
  | 1 => ASTEROID_INIT_SIZE / 2
  | 2 => ASTEROID_INIT_SIZE
  | 3 => ASTEROID_INIT_SIZE * 1.5
  | _ => ASTEROID_INIT_SIZE

/-- `Asteroid::rebondir`: reflect the speed about the normalized collision
direction. -/
noncomputable def rebondir (a : Asteroid) (collision_direction : Vec2) : Asteroid :=
  let normale := collision_direction.normalize
  { a with speed := a.speed - (2 * a.speed.dot normale) • normale }

/-- Option-valued variant of `rebondir`: `none` records that the non-finite
(NaN) result of normalizing a zero-length collision direction propagates into
the stored speed, since the source has no zero-length guard. -/
noncomputable def rebondirOpt (speed collision_direction : Vec2) : Option Vec2 :=
  (Vec2.normalizeOpt collision_direction).map
    (fun normale => speed - (2 * speed.dot normale) • normale)

end Asteroid

/-- `positions_asteroides_apres_collision` (src/asteroid.rs lines 191-203):
the two fragment positions after destroying an asteroid, offset on either
side of the collision axis. -/
noncomputable def positions_asteroides_apres_collision
    (missile_pos asteroid_pos : Vec2) : Vec2 × Vec2 :=
  let direction_missile := (asteroid_pos - missile_pos).normalize
  let offset_distance : ℝ := 50
  let perpendiculaire : Vec2 := ⟨-direction_missile.y, direction_missile.x⟩
  let pos1 := asteroid_pos + offset_distance • perpendiculaire
  let pos2 := asteroid_pos - offset_distance • perpendiculaire
  (pos1, pos2)

/-! ## `src/missile.rs` -/

/-- `Missile` (src/missile.rs). -/
structure Missile where
  position : Vec2
  vitesse : Vec2

namespace Missile

/-- `Missile::nouveau_missile(position, direction)`: speed is the unit vector
of the firing angle times the base speed 5. -/
noncomputable def nouveau_missile (position : Vec2) (direction : ℝ) : Missile :=
  { position := position
    vitesse := (5 : ℝ) • ⟨Real.cos direction, Real.sin direction⟩ }

/-- `Missile::maj_pos_missile`: straight-line advance. -/
def maj_pos_missile (m : Missile) : Missile :=
  { m with position := m.position + m.vitesse }

end Missile

/-! ## `src/spaceship.rs` -/

/-- `Spaceship` (src/spaceship.rs).  `bouclier` is a `u8` percentage
(modelled as `ℕ`), `cooldown` an `f64` timestamp. -/
structure Spaceship where
  position : Vec2
  vitesse : Vec2
  rotation : ℝ
  bouclier : ℕ
  cooldown : ℝ

/-- The held-key inputs read by `Spaceship::maj_pos`. -/
structure ShipKeys where
  left : Bool
  right : Bool
  up : Bool
  down : Bool

namespace Spaceship

/-- `Spaceship::new`: centred, heading 0, immobile, full shield. -/
noncomputable def new (w h : ℝ) : Spaceship :=
  { position := ⟨w / 2, h / 2⟩
    rotation := 0
    vitesse := ⟨0, 0⟩
    bouclier := 100
    cooldown := 0 }

/-- `Spaceship::recentrer`: recentre the position and zero the speed. -/
noncomputable def recentrer (w h : ℝ) (s : Spaceship) : Spaceship :=
  { s with position := ⟨w / 2, h / 2⟩, vitesse := ⟨0, 0⟩ }

/-- `Spaceship::restaurer_bouclier`. -/
def restaurer_bouclier (s : Spaceship) : Spaceship :=
  { s with bouclier := 100 }

/-- `Spaceship::bound_to` (src/spaceship.rs lines 189-197). -/
noncomputable def bound_to (coord : ℝ) (max : ℝ) : ℝ :=
  if coord < 0 then max - coord
  else if coord > max then coord - max
  else coord

/-- `Spaceship::bound_pos` (src/spaceship.rs lines 182-186). -/
noncomputable def bound_pos (w h : ℝ) (pos : Vec2) : Vec2 :=
  ⟨bound_to pos.x w, bound_to pos.y h⟩

/-- The shield update applied on a cooled-down collision
(src/spaceship.rs lines 156-161): `u8::saturating_sub` is `Nat` subtraction,
sizes other than 1/2/3 leave the shield unchanged. -/
def majBouclier (bouclier : ℕ) (taille : ℕ) : ℕ :=
  match taille with
  | 1 => bouclier - 10
  | 2 => bouclier - 15
  | 3 => bouclier - 25
  | _ => bouclier

/-- The input-and-movement phase of `Spaceship::maj_pos`
(src/spaceship.rs lines 98-126): rotation keys, thrust keys, ambient drag
0.97, advance by speed, wrap. -/
noncomputable def movePhase (keys : ShipKeys) (w h : ℝ) (s : Spaceship) : Spaceship :=
  let rot := s.rotation - (if keys.left then 0.05 else 0)
  let rot := rot + (if keys.right then 0.05 else 0)
  let vit := s.vitesse +
    (if keys.up then (0.2 : ℝ) • ⟨Real.cos rot, Real.sin rot⟩ else 0)
  let vit := vit -
    (if keys.down then (0.2 : ℝ) • ⟨Real.cos rot, Real.sin rot⟩ else 0)
  let vit := (0.97 : ℝ) • vit
  let pos := s.position + vit
  { s with rotation := rot, vitesse := vit, position := bound_pos w h pos }

/-- One iteration of the collision loop of `Spaceship::maj_pos`
(src/spaceship.rs lines 129-178) for a single asteroid: position correction,
bounce, cooldown-gated shield decrement, impulse, speed halving; friction is
applied to the asteroid whether or not it collided.  `t` is the value of
`get_time()` during the frame. -/
noncomputable def collisionStep (t : ℝ) (s : Spaceship) (a : Asteroid) :
    Spaceship × Asteroid :=
  let distance := s.position.dist a.position
  let distance_collision := 15 + a.rayon_asteroid
  let (s, a) :=
    if distance < distance_collision then
      let collision_direction := a.position - s.position
      let correction_vector :=
        (distance_collision - distance) • collision_direction.normalize
      let s := { s with position := s.position - correction_vector }
      let a := a.rebondir collision_direction
      let s :=
        if t - s.cooldown > 0.5 then
          { s with cooldown := t, bouclier := majBouclier s.bouclier a.taille }
        else s
      let a :=
        if s.vitesse.length > (0.1 : ℝ) then
          a.nouvelle_vitesse ((s.vitesse.length * (1.2 : ℝ)) • collision_direction.normalize)
        else a
      let s := { s with vitesse := (0.5 : ℝ) • s.vitesse }
      (s, a)
    else (s, a)
  (s, a.appliquer_resistance)

/-- `Spaceship::maj_pos` (src/spaceship.rs lines 97-179): the movement phase
followed by the collision loop over the asteroid list (the ship state is
threaded through the loop; each asteroid is replaced by its updated value). -/
noncomputable def maj_pos (keys : ShipKeys) (t w h : ℝ) (s : Spaceship)
    (asteroids : List Asteroid) : Spaceship × List Asteroid :=
  let s := movePhase keys w h s
  asteroids.foldl
    (fun acc a =>
      let q := collisionStep t acc.1 a
      (q.1, acc.2 ++ [q.2]))
    (s, [])

end Spaceship

/-! ## `src/bonus.rs` -/

/-- `Bonus` (src/bonus.rs): the shield-restore pickup. -/
structure Bonus where
  position : Vec2
  visible : Bool
  timer : ℝ

/-- The random draws consumed by one call of `Bonus::update_bonus`:
`roll ∈ [0,150)`, `roll_shield ∈ [0,1)`, `roll_else ∈ [0,10)`, a spawn
position, and the two timer draws (`timerLow ∈ [10,15)`, `timerHigh ∈ [5,10)`). -/
structure BonusRng where
  roll : ℝ
  roll_shield : ℝ
  roll_else : ℕ
  pos : Vec2
  timerLow : ℝ
  timerHigh : ℝ

namespace Bonus

/-- `Bonus::update_bonus(delta_time, bouclier)` (src/bonus.rs lines 52-87):
while visible, count the timer down and despawn at 0; while invisible, a
gated random spawn whose probability and duration depend on the shield
level. -/
noncomputable def update_bonus (b : Bonus) (delta_time : ℝ) (bouclier : ℕ)
    (rng : BonusRng) : Bonus :=
  if b.visible then
    let timer' := b.timer - delta_time
    if timer' ≤ 0 then { b with timer := timer', visible := false }
    else { b with timer := timer' }
  else
    if rng.roll < delta_time * 5 then
      if bouclier < 30 then
        if rng.roll_shield < (0.2 : ℝ) then
          { position := rng.pos, visible := true, timer := rng.timerLow }
        else b
      else
        if rng.roll_else = 0 then
          { position := rng.pos, visible := true, timer := rng.timerHigh }
        else b
    else b

/-- `Bonus::verifier_collision(position_vaisseau, rayon_vaisseau)`
(src/bonus.rs lines 97-109): returns whether the pickup was collected
together with the updated pickup. -/
noncomputable def verifier_collision (b : Bonus) (position_vaisseau : Vec2)
    (rayon_vaisseau : ℝ) : Bool × Bonus :=
  if b.visible then
    if position_vaisseau.dist b.position < rayon_vaisseau + 15 then
      (true, { b with visible := false })
    else (false, b)
  else (false, b)

end Bonus

/-! ## `src/main.rs`: the orchestrator -/

/-- Accumulator of the missile-asteroid collision pass
(src/main.rs lines 260-306): the (mutated) asteroid list, the collected
removal indices, the fragment asteroids, and the missile removal indices. -/
structure PassState where
  asteroids : List Asteroid
  astRemove : List ℕ
  newAst : List Asteroid
  misRemove : List ℕ

/-- The inner loop of the collision pass: the first asteroid (in list order)
whose distance to the missile is below `3 + radius`, with its index
(the loop `break`s after the first hit). -/
noncomputable def findHit (m : Missile) : List Asteroid → Option (ℕ × Asteroid)
  | [] => none
  | a :: rest =>
    if m.position.dist a.position < 3 + a.rayon_asteroid then some (0, a)
    else (findHit m rest).map (fun p => (p.1 + 1, p.2))

/-- The fragments pushed for a destroyed asteroid (src/main.rs lines 277-297):
size 3 spawns two size-2 asteroids, size 2 two size-1, anything else none;
positions come from `positions_asteroides_apres_collision`, the fresh random
speeds from the stream `fresh` starting at index `k`. -/
noncomputable def fragList (taille : ℕ) (mpos apos : Vec2) (fresh : ℕ → Vec2)
    (k : ℕ) : List Asteroid :=
  match taille with
  | 3 =>
    let p := positions_asteroides_apres_collision mpos apos
    [Asteroid.nouvel_asteroid 2 p.1 (fresh k),
     Asteroid.nouvel_asteroid 2 p.2 (fresh (k + 1))]
  | 2 =>
    let p := positions_asteroides_apres_collision mpos apos
    [Asteroid.nouvel_asteroid 1 p.1 (fresh k),
     Asteroid.nouvel_asteroid 1 p.2 (fresh (k + 1))]
  | _ => []

/-- Processing of one missile (index `mi`) of the collision pass
(src/main.rs lines 264-305): hit the first asteroid in range, decrement its
resistance, and if it is destroyed record its index for removal and push its
fragments; the missile index is recorded in `misRemove` on any hit. -/
noncomputable def stepMissile (fresh : ℕ → Vec2) (mi : ℕ) (m : Missile)
    (st : PassState) : PassState :=
  match findHit m st.asteroids with
  | none => st
  | some (ai, a) =>
    let a' := a.diminuer_resistance
    let asteroids' := st.asteroids.set ai a'
    if a'.est_detruit then
      { asteroids := asteroids'
        astRemove := st.astRemove ++ [ai]
        newAst := st.newAst ++
          fragList a'.taille m.position a'.position fresh st.newAst.length
        misRemove := st.misRemove ++ [mi] }
    else
      { st with asteroids := asteroids', misRemove := st.misRemove ++ [mi] }

/-- The missile loop of the collision pass, threading the missile index. -/
noncomputable def runPassAux (fresh : ℕ → Vec2) :
    List Missile → ℕ → PassState → PassState
  | [], _, st => st
  | m :: ms, mi, st => runPassAux fresh ms (mi + 1) (stepMissile fresh mi m st)

/-- The whole detection phase of the collision pass on the live lists. -/
noncomputable def runPass (missiles : List Missile) (asteroids : List Asteroid)
    (fresh : ℕ → Vec2) : PassState :=
  runPassAux fresh missiles 0 ⟨asteroids, [], [], []⟩

/-- Ascending insertion into a sorted list (model of `sort_unstable` on the
index lists). -/
def insertSorted (i : ℕ) : List ℕ → List ℕ
  | [] => [i]
  | j :: rest => if i ≤ j then i :: j :: rest else j :: insertSorted i rest

/-- Sort a list of indices ascending (`sort_unstable`). -/
def sortAsc (l : List ℕ) : List ℕ := l.foldr insertSorted []

/-- Index-based removal (src/main.rs lines 309-314 and 320-325): sort the
indices, then walk them in reverse, removing each index that is still in
bounds of the current list. -/
def removeIndices {α : Type} (idxs : List ℕ) (l : List α) : List α :=
  (sortAsc idxs).reverse.foldl
    (fun acc i => if i < acc.length then acc.eraseIdx i else acc) l

/-- The complete missile-asteroid collision pass (src/main.rs lines 260-325):
detection, removal of destroyed asteroids, appending the fragments, and
removal of spent missiles. -/
noncomputable def collisionPass (missiles : List Missile)
    (asteroids : List Asteroid) (fresh : ℕ → Vec2) :
    List Asteroid × List Missile :=
  let st := runPass missiles asteroids fresh
  (removeIndices st.astRemove st.asteroids ++ st.newAst,
   removeIndices st.misRemove missiles)

/-- Level advance (src/main.rs lines 329-337): when the asteroid list is
empty, increment the level, push `4 + niveau` (post-increment) fresh random
asteroids (supplied by the stream `spawn`), recentre the ship and clear the
missiles.  `niveau` is an `i32`, modelled as `ℤ`; a non-positive iteration
count pushes nothing, as `0..(4 + niveau)` would. -/
noncomputable def levelAdvance (w h : ℝ) (spawn : ℕ → Asteroid) (niveau : ℤ)
    (asteroids : List Asteroid) (missiles : List Missile) (s : Spaceship) :
    ℤ × List Asteroid × List Missile × Spaceship :=
  if asteroids.isEmpty then
    let niveau' := niveau + 1
    (niveau', (List.range (4 + niveau').toNat).map spawn, [],
      s.recentrer w h)
  else (niveau, asteroids, missiles, s)

/-- The orchestrator state owned by `main` (src/main.rs): the level counter,
the live asteroid and missile lists, the ship and the pickup. -/
structure GameState where
  niveau : ℤ
  asteroids : List Asteroid
  missiles : List Missile
  vaisseau : Spaceship
  bonus : Bonus

/-- The inputs read during one frame of the main loop: the held/pressed keys,
`get_time()` and `get_frame_time()`, and the screen extents. -/
structure FrameInput where
  keys : ShipKeys
  space : Bool
  enter : Bool
  escape : Bool
  time : ℝ
  dt : ℝ
  w : ℝ
  h : ℝ

/-- The random draws consumed during one frame: the pickup draws, the fresh
fragment speeds, and the fresh asteroids spawned by `Asteroid::new` on a
restart or a level advance. -/
structure FrameRng where
  bonusRng : BonusRng
  fresh : ℕ → Vec2
  spawn : ℕ → Asteroid

/-- The `Playing` branch of one iteration of the main loop
(src/main.rs lines 227-345): ship update and ship-asteroid collisions, pickup
update and collection, firing, missile advance, the missile-asteroid
collision pass, the level advance, the quit check, and the asteroid advance
(`update_model`, skipped when quitting since `break` precedes it).  Returns
the next state and whether the loop exits. -/
noncomputable def playingFrame (st : GameState) (inp : FrameInput)
    (rng : FrameRng) : GameState × Bool :=
  let (vaisseau, asteroids) :=
    Spaceship.maj_pos inp.keys inp.time inp.w inp.h st.vaisseau st.asteroids
  let bonus := st.bonus.update_bonus inp.dt vaisseau.bouclier rng.bonusRng
  let collected := bonus.verifier_collision vaisseau.position 15
  let bonus := collected.2
  let vaisseau := if collected.1 then vaisseau.restaurer_bouclier else vaisseau
  let missiles :=
    if inp.space then
      st.missiles ++ [Missile.nouveau_missile vaisseau.position vaisseau.rotation]
    else st.missiles
  let missiles := missiles.map Missile.maj_pos_missile
  let (asteroids, missiles) := collisionPass missiles asteroids rng.fresh
  let (niveau, asteroids, missiles, vaisseau) :=
    levelAdvance inp.w inp.h rng.spawn st.niveau asteroids missiles vaisseau
  let st' : GameState :=
    { niveau := niveau, asteroids := asteroids, missiles := missiles,
      vaisseau := vaisseau, bonus := bonus }
  if inp.escape then (st', true)
  else ({ st' with asteroids := st'.asteroids.map (Asteroid.move_object inp.w inp.h) },
        false)

/-- One iteration of the main loop (src/main.rs lines 152-346).  When the
shield is 0 the game-over branch runs: `Enter` rebuilds the ship, respawns 8
asteroids, clears the missiles and resets the level (the pickup is left as
is), `Escape` exits, and `continue` skips every simulation update.
Otherwise the `Playing` branch runs. -/
noncomputable def frame (st : GameState) (inp : FrameInput) (rng : FrameRng) :
    GameState × Bool :=
  if st.vaisseau.bouclier = 0 then
    let st' :=
      if inp.enter then
        { niveau := 1
          asteroids := (List.range 8).map rng.spawn
          missiles := []
          vaisseau := Spaceship.new inp.w inp.h
          bonus := st.bonus }
      else st
    (st', inp.escape)
  else playingFrame st inp rng

/-! ## Helper lemmas -/

namespace Vec2

/-- Rotating a vector by 90° preserves its length. -/
lemma length_perp (v : Vec2) : length ⟨-v.y, v.x⟩ = length v := by
  unfold length
  ring_nf

lemma neg_smul_eq (c : ℝ) (v : Vec2) (w : Vec2) : w - c • v = w + (-c) • v := by
  ext <;> simp <;> ring

end Vec2

namespace Asteroid

@[simp] lemma rebondir_position (a : Asteroid) (d : Vec2) :
    (a.rebondir d).position = a.position := rfl

@[simp] lemma rebondir_taille (a : Asteroid) (d : Vec2) :
    (a.rebondir d).taille = a.taille := rfl

@[simp] lemma rebondir_resistance (a : Asteroid) (d : Vec2) :
    (a.rebondir d).resistance = a.resistance := rfl

@[simp] lemma nouvelle_vitesse_position (a : Asteroid) (v : Vec2) :
    (a.nouvelle_vitesse v).position = a.position := rfl

@[simp] lemma nouvelle_vitesse_taille (a : Asteroid) (v : Vec2) :
    (a.nouvelle_vitesse v).taille = a.taille := rfl

@[simp] lemma nouvelle_vitesse_resistance (a : Asteroid) (v : Vec2) :
    (a.nouvelle_vitesse v).resistance = a.resistance := rfl

@[simp] lemma appliquer_resistance_position (a : Asteroid) :
    a.appliquer_resistance.position = a.position := by
  unfold appliquer_resistance
  dsimp only
  split_ifs <;> rfl

@[simp] lemma appliquer_resistance_taille (a : Asteroid) :
    a.appliquer_resistance.taille = a.taille := by
  unfold appliquer_resistance
  dsimp only
  split_ifs <;> rfl

@[simp] lemma appliquer_resistance_resistance (a : Asteroid) :
    a.appliquer_resistance.resistance = a.resistance := by
  unfold appliquer_resistance
  dsimp only
  split_ifs <;> rfl

lemma rayon_of_taille_trois (a : Asteroid) (h : a.taille = 3) :
    a.rayon_asteroid = 90 := by
  unfold rayon_asteroid
  rw [h]
  norm_num [ASTEROID_INIT_SIZE]

lemma rayon_of_taille_un (a : Asteroid) (h : a.taille = 1) :
    a.rayon_asteroid = 30 := by
  unfold rayon_asteroid
  rw [h]
  norm_num [ASTEROID_INIT_SIZE]

end Asteroid

namespace Spaceship

/-- A collision step either leaves the shield alone or applies the
size-dependent decrement. -/
lemma collisionStep_bouclier (t : ℝ) (s : Spaceship) (a : Asteroid) :
    (collisionStep t s a).1.bouclier = s.bouclier ∨
    (collisionStep t s a).1.bouclier = majBouclier s.bouclier a.taille := by
  unfold collisionStep
  dsimp only
  split_ifs <;> simp

/-- The decrement never increases the shield. -/
lemma majBouclier_le (b taille : ℕ) : majBouclier b taille ≤ b := by
  rcases taille with _ | _ | _ | _ | n <;> simp [majBouclier]

/-- A collision step preserves the shield upper bound. -/
lemma collisionStep_bouclier_le (t : ℝ) (s : Spaceship) (a : Asteroid)
    (h : s.bouclier ≤ 100) : (collisionStep t s a).1.bouclier ≤ 100 := by
  rcases collisionStep_bouclier t s a with h' | h' <;> rw [h']
  · exact h
  · exact le_trans (majBouclier_le _ _) h

/-- The collision loop of `maj_pos` preserves the shield upper bound. -/
lemma maj_pos_loop_bouclier_le (t : ℝ) :
    ∀ (l : List Asteroid) (p : Spaceship × List Asteroid),
      p.1.bouclier ≤ 100 →
      (l.foldl
        (fun acc a =>
          let q := collisionStep t acc.1 a
          (q.1, acc.2 ++ [q.2])) p).1.bouclier ≤ 100 := by
  intro l
  induction l with
  | nil => intro p hp; exact hp
  | cons a l ih =>
    intro p hp
    exact ih _ (collisionStep_bouclier_le t p.1 a hp)

/-- When no `0.5` time-units have passed since the cooldown timestamp, a
collision step changes neither the shield nor the cooldown. -/
lemma collisionStep_no_deduct (t : ℝ) (s : Spaceship) (a : Asteroid)
    (h : t - s.cooldown ≤ 0.5) :
    (collisionStep t s a).1.bouclier = s.bouclier ∧
    (collisionStep t s a).1.cooldown = s.cooldown := by
  unfold collisionStep
  dsimp only
  split_ifs with h1 h2 h3 <;> first
    | exact absurd h2 (not_lt.mpr h)
    | simp

/-- A colliding step with an elapsed cooldown applies the decrement and
resets the cooldown timestamp to the current time. -/
lemma collisionStep_deduct (t : ℝ) (s : Spaceship) (a : Asteroid)
    (hcol : s.position.dist a.position < 15 + a.rayon_asteroid)
    (hcd : t - s.cooldown > 0.5) :
    (collisionStep t s a).1.bouclier = majBouclier s.bouclier a.taille ∧
    (collisionStep t s a).1.cooldown = t := by
  unfold collisionStep
  dsimp only
  rw [if_pos hcol]
  rw [if_pos (show t - s.cooldown > 0.5 from hcd)]
  split_ifs <;> simp

end Spaceship

namespace Asteroid

/-- The inner floor check of `appliquer_resistance` is a self-assignment, so
whenever the speed exceeds the minimum the result is exactly the
0.98-scaled speed. -/
lemma appliquer_resistance_speed (a : Asteroid) :
    a.appliquer_resistance.speed =
      if a.speed.length > a.speed_min.length then (0.98 : ℝ) • a.speed
      else a.speed := by
  unfold appliquer_resistance
  dsimp only
  split_ifs <;> rfl

end Asteroid

/-- `findHit` hits the head of the list when it is in range. -/
lemma findHit_cons (m : Missile) (a : Asteroid) (rest : List Asteroid)
    (h : m.position.dist a.position < 3 + a.rayon_asteroid) :
    findHit m (a :: rest) = some (0, a) := by
  simp only [findHit]
  rw [if_pos h]

/-- A missile hit on an asteroid at resistance 1 destroys it: the resistance
drops to 0, the slot index and missile index are recorded for removal, and
the fragments are appended. -/
lemma stepMissile_hit_destroys (fresh : ℕ → Vec2) (mi : ℕ) (m : Missile)
    (st : PassState) (ai : ℕ) (a : Asteroid)
    (hfind : findHit m st.asteroids = some (ai, a))
    (hres : a.resistance = 1) :
    stepMissile fresh mi m st =
      { asteroids := st.asteroids.set ai { a with resistance := 0 }
        astRemove := st.astRemove ++ [ai]
        newAst := st.newAst ++
          fragList a.taille m.position a.position fresh st.newAst.length
        misRemove := st.misRemove ++ [mi] } := by
  have ha' : a.diminuer_resistance = { a with resistance := 0 } := by
    unfold Asteroid.diminuer_resistance
    rw [hres]
    norm_num
  unfold stepMissile
  rw [hfind]
  dsimp only
  rw [ha']
  rw [if_pos (show Asteroid.est_detruit { a with resistance := 0 } from rfl)]

/-- A missile hit on an already-destroyed (resistance 0) asteroid that is
still in the list: the resistance decrement is a no-op but the destruction
branch runs *again*, appending fragments and recording the index a second
time. -/
lemma stepMissile_hit_dead (fresh : ℕ → Vec2) (mi : ℕ) (m : Missile)
    (st : PassState) (ai : ℕ) (a : Asteroid)
    (hfind : findHit m st.asteroids = some (ai, a))
    (hres : a.resistance = 0) :
    stepMissile fresh mi m st =
      { asteroids := st.asteroids.set ai a
        astRemove := st.astRemove ++ [ai]
        newAst := st.newAst ++
          fragList a.taille m.position a.position fresh st.newAst.length
        misRemove := st.misRemove ++ [mi] } := by
  have ha' : a.diminuer_resistance = a := by
    unfold Asteroid.diminuer_resistance
    rw [hres]
    norm_num
  unfold stepMissile
  rw [hfind]
  dsimp only
  rw [ha']
  rw [if_pos (show Asteroid.est_detruit a from hres)]

/-- `stepMissile` is the identity when the missile hits nothing. -/
lemma stepMissile_miss (fresh : ℕ → Vec2) (mi : ℕ) (m : Missile)
    (st : PassState) (h : findHit m st.asteroids = none) :
    stepMissile fresh mi m st = st := by
  unfold stepMissile
  rw [h]

/-- `findHit` returns `none` exactly when no asteroid of the list is in
collision range of the missile. -/
lemma findHit_eq_none_iff (m : Missile) (l : List Asteroid) :
    findHit m l = none ↔
      ∀ x ∈ l, ¬(m.position.dist x.position < 3 + x.rayon_asteroid) := by
  induction l with
  | nil => simp [findHit]
  | cons a rest ih =>
    by_cases h : m.position.dist a.position < 3 + a.rayon_asteroid
    · simp only [findHit, if_pos h]
      refine ⟨fun hc => by simp at hc,
        fun hall => (hall a (List.mem_cons_self a rest) h).elim⟩
    · simp only [findHit, if_neg h, Option.map_eq_none', ih]
      constructor
      · intro hr x hx
        rcases List.mem_cons.mp hx with rfl | hx'
        · exact h
        · exact hr x hx'
      · intro hall x hx
        exact hall x (List.mem_cons_of_mem a hx)

/-- A hit returned by `findHit` is at an in-bounds index and is a member of
the list. -/
lemma findHit_some_lt_mem (m : Missile) (a : Asteroid) :
    ∀ (l : List Asteroid) (i : ℕ),
      findHit m l = some (i, a) → i < l.length ∧ a ∈ l := by
  intro l
  induction l with
  | nil => intro i h; simp [findHit] at h
  | cons b rest ih =>
    intro i h
    by_cases hb : m.position.dist b.position < 3 + b.rayon_asteroid
    · simp only [findHit, if_pos hb, Option.some.injEq, Prod.mk.injEq] at h
      obtain ⟨hi, hba⟩ := h
      subst hi
      subst hba
      exact ⟨by simp, List.mem_cons_self b rest⟩
    · simp only [findHit, if_neg hb, Option.map_eq_some'] at h
      obtain ⟨⟨j, c⟩, hj, hco⟩ := h
      simp only [Prod.mk.injEq] at hco
      obtain ⟨hi, hca⟩ := hco
      subst hi
      subst hca
      obtain ⟨hlt, hmem⟩ := ih j hj
      exact ⟨by simpa using Nat.succ_lt_succ hlt, List.mem_cons_of_mem b hmem⟩

/-- Zeroing the resistance of a list slot does not bring any asteroid into
range: `findHit` misses the updated list whenever it missed the original
(the collision test reads only positions and sizes). -/
lemma findHit_none_set (m' : Missile) (l : List Asteroid) (i : ℕ)
    (a : Asteroid) (ha : a ∈ l) (h : findHit m' l = none) :
    findHit m' (l.set i { a with resistance := 0 }) = none := by
  rw [findHit_eq_none_iff] at h ⊢
  intro x hx
  rcases List.mem_or_eq_of_mem_set hx with hx' | rfl
  · exact h x hx'
  · exact h a ha

/-- The missile loop splits over list append, shifting the index. -/
lemma runPassAux_append (fresh : ℕ → Vec2) (xs : List Missile) :
    ∀ (ys : List Missile) (k : ℕ) (st : PassState),
      runPassAux fresh (xs ++ ys) k st =
        runPassAux fresh ys (k + xs.length) (runPassAux fresh xs k st) := by
  induction xs with
  | nil => intro ys k st; simp [runPassAux]
  | cons x xs ih =>
    intro ys k st
    simp only [List.cons_append, runPassAux, List.length_cons, List.append_eq]
    rw [ih ys (k + 1) (stepMissile fresh k x st),
      show k + 1 + xs.length = k + (xs.length + 1) from by omega]

/-- A run of missiles that all miss leaves the pass state unchanged. -/
lemma runPassAux_all_miss (fresh : ℕ → Vec2) (st : PassState) :
    ∀ (ms : List Missile) (k : ℕ),
      (∀ m ∈ ms, findHit m st.asteroids = none) →
      runPassAux fresh ms k st = st := by
  intro ms
  induction ms with
  | nil => intro k _; rfl
  | cons m ms ih =>
    intro k h
    simp only [runPassAux]
    rw [stepMissile_miss fresh k m st (h m (List.mem_cons_self m ms))]
    exact ih (k + 1) (fun m' hm' => h m' (List.mem_cons_of_mem m hm'))

/-- Removing a single in-bounds index is `eraseIdx`. -/
lemma removeIndices_singleton {α : Type} (i : ℕ) (l : List α)
    (h : i < l.length) : removeIndices [i] l = l.eraseIdx i := by
  unfold removeIndices
  rw [show sortAsc [i] = [i] from rfl, List.reverse_singleton,
    List.foldl_cons, List.foldl_nil, if_pos h]

/-- Erasing the very slot that was overwritten gives the same list as
erasing it from the original. -/
lemma eraseIdx_set_same {α : Type} :
    ∀ (l : List α) (i : ℕ) (x : α), (l.set i x).eraseIdx i = l.eraseIdx i
  | [], _, _ => rfl
  | _ :: _, 0, _ => rfl
  | a :: rest, i + 1, x => by
    simp only [List.set_cons_succ, List.eraseIdx_cons_succ,
      eraseIdx_set_same rest i x]

/-- For a well-defined (nonzero) approach direction, the two fragment
positions are each at distance exactly 50 from the destroyed asteroid's
position, are distinct, and lie on the axis perpendicular to the approach
direction. -/
lemma positions_apres_collision_props (mpos apos : Vec2) (h : mpos ≠ apos) :
    Vec2.dist (positions_asteroides_apres_collision mpos apos).1 apos = 50 ∧
    Vec2.dist (positions_asteroides_apres_collision mpos apos).2 apos = 50 ∧
    (positions_asteroides_apres_collision mpos apos).1 ≠
      (positions_asteroides_apres_collision mpos apos).2 ∧
    Vec2.dot ((positions_asteroides_apres_collision mpos apos).1 - apos)
      (apos - mpos) = 0 ∧
    Vec2.dot ((positions_asteroides_apres_collision mpos apos).2 - apos)
      (apos - mpos) = 0 := by
  have hd : apos - mpos ≠ (0 : Vec2) := by
    intro h0
    apply h
    have hx := congrArg Vec2.x h0
    have hy := congrArg Vec2.y h0
    simp at hx hy
    ext
    · linarith
    · linarith
  unfold positions_asteroides_apres_collision
  dsimp only
  set n := (apos - mpos).normalize with hn
  have hperp : Vec2.length ⟨-n.y, n.x⟩ = 1 := by
    rw [Vec2.length_perp]
    exact Vec2.length_normalize _ hd
  have h1 : (apos + (50:ℝ) • (⟨-n.y, n.x⟩ : Vec2)) - apos
      = (50:ℝ) • (⟨-n.y, n.x⟩ : Vec2) := by
    ext <;> simp
  have h2 : (apos - (50:ℝ) • (⟨-n.y, n.x⟩ : Vec2)) - apos
      = (-50:ℝ) • (⟨-n.y, n.x⟩ : Vec2) := by
    ext <;> simp
  refine ⟨?_, ?_, ?_, ?_, ?_⟩
  · unfold Vec2.dist
    rw [h1, Vec2.length_smul, hperp]
    norm_num
  · unfold Vec2.dist
    rw [h2, Vec2.length_smul, hperp]
    norm_num
  · intro heq
    have hx := congrArg Vec2.x heq
    have hy := congrArg Vec2.y heq
    simp at hx hy
    have h0 : Vec2.length ⟨-n.y, n.x⟩ = 0 := by
      have hnx : n.x = 0 := by linarith
      have hny : n.y = 0 := by linarith
      rw [hnx, hny]
      unfold Vec2.length
      simp
    rw [hperp] at h0
    norm_num at h0
  · rw [hn]
    unfold Vec2.normalize
    simp [Vec2.dot]
    ring
  · rw [hn]
    unfold Vec2.normalize
    simp [Vec2.dot]
    ring

/-! ## Claims -/

/-- **C5.** For every coordinate `c` and screen extent `max`, the wrap rule
maps `c < 0` to `max − c`, `c > max` (for in-range-signed `c`) to `c − max`,
and leaves `c` unchanged otherwise; in particular `x = −5` on a screen of
width 800 maps to 805, and `x = 805` maps to 5. -/
theorem c5_wrap_rule :
    (∀ c max : ℝ, c < 0 → Asteroid.bound_to c max = max - c) ∧
    (∀ c max : ℝ, 0 ≤ c → max < c → Asteroid.bound_to c max = c - max) ∧
    (∀ c max : ℝ, 0 ≤ c → c ≤ max → Asteroid.bound_to c max = c) ∧
    Asteroid.bound_to (-5) 800 = 805 ∧
    Asteroid.bound_to 805 800 = 5 := by
  refine ⟨?_, ?_, ?_, ?_, ?_⟩
  · intro c max h
    unfold Asteroid.bound_to
    rw [if_pos h]
  · intro c max h0 h
    unfold Asteroid.bound_to
    rw [if_neg (not_lt.mpr h0), if_pos h]
  · intro c max h0 h
    unfold Asteroid.bound_to
    rw [if_neg (not_lt.mpr h0), if_neg (not_lt.mpr h)]
  · unfold Asteroid.bound_to
    norm_num
  · unfold Asteroid.bound_to
    norm_num

/-- Witness for C5 at concrete inputs: `-3 < 0` and the wrap of `-3` on a
screen of extent 10 is `10 - (-3)`. -/
theorem c5_wrap_rule_witness :
    ((-3 : ℝ) < 0) ∧ Asteroid.bound_to (-3) 10 = 10 - (-3) :=
  ⟨by norm_num, c5_wrap_rule.1 (-3) 10 (by norm_num)⟩

/-- **C1** (amended).  In any tick of the collision pass in which exactly one
missile collides with an asteroid — the missile list is `pre ++ m :: post`
where every missile of `pre` and `post` hits nothing, `m`'s first in-range
asteroid is the one at index `i` of an arbitrary asteroid list, that asteroid
has resistance 1 (so it is destroyed) and its position differs from the
missile's: destroying a size-3 asteroid adds exactly the two size-2
fragments, a size-2 exactly the two size-1 fragments, a size-1 none; the live
set afterwards is the original list with exactly the destroyed slot erased
and the fragments appended, only the destroying missile is consumed; and the
two fragment positions are distinct, each at distance exactly 50 from the
destroyed asteroid's last position, along the axis perpendicular to the
missile's approach direction. -/
theorem c1_fragments_amended (pre post : List Missile) (m : Missile)
    (asts : List Asteroid) (i : ℕ) (a : Asteroid) (fresh : ℕ → Vec2)
    (hfind : findHit m asts = some (i, a))
    (hres : a.resistance = 1)
    (hpre : ∀ m' ∈ pre, findHit m' asts = none)
    (hpost : ∀ m' ∈ post, findHit m' asts = none)
    (hpos : m.position ≠ a.position) :
    (a.taille = 3 →
      (runPass (pre ++ m :: post) asts fresh).newAst =
        [Asteroid.nouvel_asteroid 2
          (positions_asteroides_apres_collision m.position a.position).1 (fresh 0),
         Asteroid.nouvel_asteroid 2
          (positions_asteroides_apres_collision m.position a.position).2 (fresh 1)]) ∧
    (a.taille = 2 →
      (runPass (pre ++ m :: post) asts fresh).newAst =
        [Asteroid.nouvel_asteroid 1
          (positions_asteroides_apres_collision m.position a.position).1 (fresh 0),
         Asteroid.nouvel_asteroid 1
          (positions_asteroides_apres_collision m.position a.position).2 (fresh 1)]) ∧
    (a.taille = 1 → (runPass (pre ++ m :: post) asts fresh).newAst = []) ∧
    (collisionPass (pre ++ m :: post) asts fresh).1 =
      asts.eraseIdx i ++ (runPass (pre ++ m :: post) asts fresh).newAst ∧
    (collisionPass (pre ++ m :: post) asts fresh).2 =
      (pre ++ m :: post).eraseIdx pre.length ∧
    Vec2.dist (positions_asteroides_apres_collision m.position a.position).1
      a.position = 50 ∧
    Vec2.dist (positions_asteroides_apres_collision m.position a.position).2
      a.position = 50 ∧
    (positions_asteroides_apres_collision m.position a.position).1 ≠
      (positions_asteroides_apres_collision m.position a.position).2 ∧
    Vec2.dot ((positions_asteroides_apres_collision m.position a.position).1
      - a.position) (a.position - m.position) = 0 ∧
    Vec2.dot ((positions_asteroides_apres_collision m.position a.position).2
      - a.position) (a.position - m.position) = 0 := by
  obtain ⟨hlt, hmem⟩ := findHit_some_lt_mem m a asts i hfind
  have h1 : runPass (pre ++ m :: post) asts fresh
      = runPassAux fresh (m :: post) pre.length ⟨asts, [], [], []⟩ := by
    unfold runPass
    rw [runPassAux_append, runPassAux_all_miss fresh ⟨asts, [], [], []⟩ pre 0 hpre,
      Nat.zero_add]
  have h2 : runPassAux fresh (m :: post) pre.length ⟨asts, [], [], []⟩
      = runPassAux fresh post (pre.length + 1)
          ⟨asts.set i { a with resistance := 0 }, [i],
            fragList a.taille m.position a.position fresh 0, [pre.length]⟩ := by
    simp only [runPassAux]
    rw [stepMissile_hit_destroys fresh pre.length m ⟨asts, [], [], []⟩ i a
      hfind hres]
    rfl
  have h3 : runPassAux fresh post (pre.length + 1)
        ⟨asts.set i { a with resistance := 0 }, [i],
          fragList a.taille m.position a.position fresh 0, [pre.length]⟩
      = ⟨asts.set i { a with resistance := 0 }, [i],
          fragList a.taille m.position a.position fresh 0, [pre.length]⟩ :=
    runPassAux_all_miss fresh _ post (pre.length + 1)
      (fun m' hm' => findHit_none_set m' asts i a hmem (hpost m' hm'))
  have hrun : runPass (pre ++ m :: post) asts fresh
      = ⟨asts.set i { a with resistance := 0 }, [i],
          fragList a.taille m.position a.position fresh 0, [pre.length]⟩ :=
    h1.trans (h2.trans h3)
  obtain ⟨hp1, hp2, hne, hd1, hd2⟩ :=
    positions_apres_collision_props m.position a.position hpos
  refine ⟨?_, ?_, ?_, ?_, ?_, hp1, hp2, hne, hd1, hd2⟩
  · intro h3'
    rw [hrun]
    dsimp only
    rw [h3']
    simp [fragList]
  · intro h2'
    rw [hrun]
    dsimp only
    rw [h2']
    simp [fragList]
  · intro h1'
    rw [hrun]
    dsimp only
    rw [h1']
    simp [fragList]
  · unfold collisionPass
    dsimp only
    rw [hrun]
    dsimp only
    rw [removeIndices_singleton i _ (by simpa using hlt), eraseIdx_set_same]
  · unfold collisionPass
    dsimp only
    rw [hrun]
    dsimp only
    rw [removeIndices_singleton pre.length _ (by simp)]

/-- Witness for C1 (amended), with a non-trivial pass: one leading missile
that misses everything, one missile at the origin whose first in-range
asteroid is the large resistance-1 asteroid at index 1 of a two-asteroid
list; the fragments are exactly the two size-2 asteroids. -/
theorem c1_fragments_amended_witness :
    (findHit ⟨⟨0, 0⟩, ⟨0, 0⟩⟩
      [⟨⟨500, 0⟩, ⟨1, 0⟩, ⟨1, 0⟩, 1, 1⟩, ⟨⟨10, 0⟩, ⟨1, 0⟩, ⟨1, 0⟩, 3, 1⟩] =
        some (1, ⟨⟨10, 0⟩, ⟨1, 0⟩, ⟨1, 0⟩, 3, 1⟩)) ∧
    ((⟨⟨10, 0⟩, ⟨1, 0⟩, ⟨1, 0⟩, 3, 1⟩ : Asteroid).resistance = 1) ∧
    (∀ m' ∈ [(⟨⟨1000, 0⟩, ⟨0, 0⟩⟩ : Missile)],
      findHit m' [⟨⟨500, 0⟩, ⟨1, 0⟩, ⟨1, 0⟩, 1, 1⟩,
        ⟨⟨10, 0⟩, ⟨1, 0⟩, ⟨1, 0⟩, 3, 1⟩] = none) ∧
    ((⟨⟨0, 0⟩, ⟨0, 0⟩⟩ : Missile).position ≠
      (⟨⟨10, 0⟩, ⟨1, 0⟩, ⟨1, 0⟩, 3, 1⟩ : Asteroid).position) ∧
    (runPass ([⟨⟨1000, 0⟩, ⟨0, 0⟩⟩] ++ ⟨⟨0, 0⟩, ⟨0, 0⟩⟩ :: [])
        [⟨⟨500, 0⟩, ⟨1, 0⟩, ⟨1, 0⟩, 1, 1⟩, ⟨⟨10, 0⟩, ⟨1, 0⟩, ⟨1, 0⟩, 3, 1⟩]
        (fun _ => ⟨1, 0⟩)).newAst =
      [Asteroid.nouvel_asteroid 2
        (positions_asteroides_apres_collision ⟨0, 0⟩ ⟨10, 0⟩).1 ⟨1, 0⟩,
       Asteroid.nouvel_asteroid 2
        (positions_asteroides_apres_collision ⟨0, 0⟩ ⟨10, 0⟩).2 ⟨1, 0⟩] := by
  have hnS : ¬(Vec2.dist ⟨0, 0⟩ ⟨500, 0⟩ <
      3 + Asteroid.rayon_asteroid ⟨⟨500, 0⟩, ⟨1, 0⟩, ⟨1, 0⟩, 1, 1⟩) := by
    rw [Vec2.dist_axis, Asteroid.rayon_of_taille_un _ rfl]
    norm_num
  have hB : Vec2.dist ⟨0, 0⟩ ⟨10, 0⟩ <
      3 + Asteroid.rayon_asteroid ⟨⟨10, 0⟩, ⟨1, 0⟩, ⟨1, 0⟩, 3, 1⟩ := by
    rw [Vec2.dist_axis, Asteroid.rayon_of_taille_trois _ rfl]
    norm_num
  have hfind : findHit ⟨⟨0, 0⟩, ⟨0, 0⟩⟩
      [⟨⟨500, 0⟩, ⟨1, 0⟩, ⟨1, 0⟩, 1, 1⟩, ⟨⟨10, 0⟩, ⟨1, 0⟩, ⟨1, 0⟩, 3, 1⟩] =
        some (1, ⟨⟨10, 0⟩, ⟨1, 0⟩, ⟨1, 0⟩, 3, 1⟩) := by
    simp only [findHit]
    rw [if_neg hnS, if_pos hB]
    rfl
  have hpre : ∀ m' ∈ [(⟨⟨1000, 0⟩, ⟨0, 0⟩⟩ : Missile)],
      findHit m' [⟨⟨500, 0⟩, ⟨1, 0⟩, ⟨1, 0⟩, 1, 1⟩,
        ⟨⟨10, 0⟩, ⟨1, 0⟩, ⟨1, 0⟩, 3, 1⟩] = none := by
    intro m' hm'
    rw [List.mem_singleton.mp hm']
    have hnS' : ¬(Vec2.dist ⟨1000, 0⟩ ⟨500, 0⟩ <
        3 + Asteroid.rayon_asteroid ⟨⟨500, 0⟩, ⟨1, 0⟩, ⟨1, 0⟩, 1, 1⟩) := by
      rw [Vec2.dist_axis, Asteroid.rayon_of_taille_un _ rfl]
      norm_num
    have hnB' : ¬(Vec2.dist ⟨1000, 0⟩ ⟨10, 0⟩ <
        3 + Asteroid.rayon_asteroid ⟨⟨10, 0⟩, ⟨1, 0⟩, ⟨1, 0⟩, 3, 1⟩) := by
      rw [Vec2.dist_axis, Asteroid.rayon_of_taille_trois _ rfl]
      norm_num
    simp only [findHit]
    rw [if_neg hnS', if_neg hnB']
    rfl
  have hpost : ∀ m' ∈ ([] : List Missile),
      findHit m' [(⟨⟨500, 0⟩, ⟨1, 0⟩, ⟨1, 0⟩, 1, 1⟩ : Asteroid),
        ⟨⟨10, 0⟩, ⟨1, 0⟩, ⟨1, 0⟩, 3, 1⟩] = none := by
    intro m' hm'
    exact absurd hm' (List.not_mem_nil m')
  have hpos : (⟨⟨0, 0⟩, ⟨0, 0⟩⟩ : Missile).position ≠
      (⟨⟨10, 0⟩, ⟨1, 0⟩, ⟨1, 0⟩, 3, 1⟩ : Asteroid).position := by
    intro heq
    exact absurd (congrArg Vec2.x heq) (by norm_num)
  exact ⟨hfind, rfl, hpre, hpos,
    (c1_fragments_amended [⟨⟨1000, 0⟩, ⟨0, 0⟩⟩] [] ⟨⟨0, 0⟩, ⟨0, 0⟩⟩
      [⟨⟨500, 0⟩, ⟨1, 0⟩, ⟨1, 0⟩, 1, 1⟩, ⟨⟨10, 0⟩, ⟨1, 0⟩, ⟨1, 0⟩, 3, 1⟩] 1
      ⟨⟨10, 0⟩, ⟨1, 0⟩, ⟨1, 0⟩, 3, 1⟩ (fun _ => ⟨1, 0⟩)
      hfind rfl hpre hpost hpos).1 rfl⟩

/-- **C1** (counterexample).  Two missiles both in range of a single large
(size-3) asteroid at resistance 1: the first missile destroys it, the second
hits the not-yet-removed carcass and the destruction branch runs again, so
the tick ends with *four* medium fragments in the live set — not the
"exactly 2" the claim states (both missiles are consumed and the parent is
removed). -/
theorem c1_fragments_counterexample :
    ((collisionPass [⟨⟨0, 0⟩, ⟨0, 0⟩⟩, ⟨⟨1, 0⟩, ⟨0, 0⟩⟩]
        [⟨⟨10, 0⟩, ⟨1, 0⟩, ⟨1, 0⟩, 3, 1⟩] (fun _ => ⟨1, 0⟩)).1.length = 4) ∧
    (∀ x ∈ (collisionPass [⟨⟨0, 0⟩, ⟨0, 0⟩⟩, ⟨⟨1, 0⟩, ⟨0, 0⟩⟩]
        [⟨⟨10, 0⟩, ⟨1, 0⟩, ⟨1, 0⟩, 3, 1⟩] (fun _ => ⟨1, 0⟩)).1,
      x.taille = 2) ∧
    ((collisionPass [⟨⟨0, 0⟩, ⟨0, 0⟩⟩, ⟨⟨1, 0⟩, ⟨0, 0⟩⟩]
        [⟨⟨10, 0⟩, ⟨1, 0⟩, ⟨1, 0⟩, 3, 1⟩] (fun _ => ⟨1, 0⟩)).2 = []) := by
  have hfind1 : findHit (⟨⟨0, 0⟩, ⟨0, 0⟩⟩ : Missile)
      [⟨⟨10, 0⟩, ⟨1, 0⟩, ⟨1, 0⟩, 3, 1⟩] =
      some (0, ⟨⟨10, 0⟩, ⟨1, 0⟩, ⟨1, 0⟩, 3, 1⟩) := by
    refine findHit_cons _ _ _ ?_
    show Vec2.dist ⟨0, 0⟩ ⟨10, 0⟩ <
      3 + Asteroid.rayon_asteroid ⟨⟨10, 0⟩, ⟨1, 0⟩, ⟨1, 0⟩, 3, 1⟩
    rw [Vec2.dist_axis, Asteroid.rayon_of_taille_trois _ rfl]
    norm_num
  have hfind2 : findHit (⟨⟨1, 0⟩, ⟨0, 0⟩⟩ : Missile)
      [⟨⟨10, 0⟩, ⟨1, 0⟩, ⟨1, 0⟩, 3, 0⟩] =
      some (0, ⟨⟨10, 0⟩, ⟨1, 0⟩, ⟨1, 0⟩, 3, 0⟩) := by
    refine findHit_cons _ _ _ ?_
    show Vec2.dist ⟨1, 0⟩ ⟨10, 0⟩ <
      3 + Asteroid.rayon_asteroid ⟨⟨10, 0⟩, ⟨1, 0⟩, ⟨1, 0⟩, 3, 0⟩
    rw [Vec2.dist_axis, Asteroid.rayon_of_taille_trois _ rfl]
    norm_num
  have hs1 : stepMissile (fun _ => (⟨1, 0⟩ : Vec2)) 0 ⟨⟨0, 0⟩, ⟨0, 0⟩⟩
      ⟨[⟨⟨10, 0⟩, ⟨1, 0⟩, ⟨1, 0⟩, 3, 1⟩], [], [], []⟩ =
      ⟨[⟨⟨10, 0⟩, ⟨1, 0⟩, ⟨1, 0⟩, 3, 0⟩], [0],
        fragList 3 ⟨0, 0⟩ ⟨10, 0⟩ (fun _ => ⟨1, 0⟩) 0, [0]⟩ := by
    rw [stepMissile_hit_destroys (fun _ => ⟨1, 0⟩) 0 ⟨⟨0, 0⟩, ⟨0, 0⟩⟩
      ⟨[⟨⟨10, 0⟩, ⟨1, 0⟩, ⟨1, 0⟩, 3, 1⟩], [], [], []⟩ 0
      ⟨⟨10, 0⟩, ⟨1, 0⟩, ⟨1, 0⟩, 3, 1⟩ hfind1 rfl]
    simp
  have hs2 : stepMissile (fun _ => (⟨1, 0⟩ : Vec2)) 1 ⟨⟨1, 0⟩, ⟨0, 0⟩⟩
      ⟨[⟨⟨10, 0⟩, ⟨1, 0⟩, ⟨1, 0⟩, 3, 0⟩], [0],
        fragList 3 ⟨0, 0⟩ ⟨10, 0⟩ (fun _ => ⟨1, 0⟩) 0, [0]⟩ =
      ⟨[⟨⟨10, 0⟩, ⟨1, 0⟩, ⟨1, 0⟩, 3, 0⟩], [0, 0],
        fragList 3 ⟨0, 0⟩ ⟨10, 0⟩ (fun _ => ⟨1, 0⟩) 0 ++
          fragList 3 ⟨1, 0⟩ ⟨10, 0⟩ (fun _ => ⟨1, 0⟩)
            (fragList 3 ⟨0, 0⟩ ⟨10, 0⟩ (fun _ => ⟨1, 0⟩) 0).length,
        [0, 1]⟩ := by
    rw [stepMissile_hit_dead (fun _ => ⟨1, 0⟩) 1 ⟨⟨1, 0⟩, ⟨0, 0⟩⟩
      ⟨[⟨⟨10, 0⟩, ⟨1, 0⟩, ⟨1, 0⟩, 3, 0⟩], [0],
        fragList 3 ⟨0, 0⟩ ⟨10, 0⟩ (fun _ => ⟨1, 0⟩) 0, [0]⟩ 0
      ⟨⟨10, 0⟩, ⟨1, 0⟩, ⟨1, 0⟩, 3, 0⟩ hfind2 rfl]
    simp
  have hrun : runPass [⟨⟨0, 0⟩, ⟨0, 0⟩⟩, ⟨⟨1, 0⟩, ⟨0, 0⟩⟩]
      [⟨⟨10, 0⟩, ⟨1, 0⟩, ⟨1, 0⟩, 3, 1⟩] (fun _ => ⟨1, 0⟩) =
      ⟨[⟨⟨10, 0⟩, ⟨1, 0⟩, ⟨1, 0⟩, 3, 0⟩], [0, 0],
        fragList 3 ⟨0, 0⟩ ⟨10, 0⟩ (fun _ => ⟨1, 0⟩) 0 ++
          fragList 3 ⟨1, 0⟩ ⟨10, 0⟩ (fun _ => ⟨1, 0⟩)
            (fragList 3 ⟨0, 0⟩ ⟨10, 0⟩ (fun _ => ⟨1, 0⟩) 0).length,
        [0, 1]⟩ := by
    unfold runPass
    simp only [runPassAux]
    rw [hs1, hs2]
  refine ⟨?_, ?_, ?_⟩
  · unfold collisionPass
    dsimp only
    rw [hrun]
    simp [removeIndices, sortAsc, insertSorted, fragList]
  · unfold collisionPass
    dsimp only
    rw [hrun]
    intro x hx
    simp [removeIndices, sortAsc, insertSorted, fragList,
      Asteroid.nouvel_asteroid] at hx
    rcases hx with h | h | h | h <;> rw [h]
  · unfold collisionPass
    dsimp only
    rw [hrun]
    simp [removeIndices, sortAsc, insertSorted]

/-- **C2.** The shield stays in `[0,100]` (it is a natural number, so the
lower bound is by type): `maj_pos` preserves the upper bound 100 for any
sequence of asteroid collisions, each collision step either leaves the shield
unchanged or applies the size-dependent saturating decrement, the decrement
subtracts exactly 10/15/25 for sizes 1/2/3 (saturating at 0), from 100 a
large collision leaves 75 and a small one 90, and the only other assignment,
the full restore, sets exactly 100. -/
theorem c2_bouclier_clamped :
    (∀ (keys : ShipKeys) (t w h : ℝ) (s : Spaceship) (asteroids : List Asteroid),
      s.bouclier ≤ 100 →
      (Spaceship.maj_pos keys t w h s asteroids).1.bouclier ≤ 100) ∧
    (∀ (t : ℝ) (s : Spaceship) (a : Asteroid),
      (Spaceship.collisionStep t s a).1.bouclier = s.bouclier ∨
      (Spaceship.collisionStep t s a).1.bouclier =
        Spaceship.majBouclier s.bouclier a.taille) ∧
    (∀ b : ℕ, Spaceship.majBouclier b 1 = b - 10) ∧
    (∀ b : ℕ, Spaceship.majBouclier b 2 = b - 15) ∧
    (∀ b : ℕ, Spaceship.majBouclier b 3 = b - 25) ∧
    Spaceship.majBouclier 100 3 = 75 ∧
    Spaceship.majBouclier 100 1 = 90 ∧
    (∀ s : Spaceship, s.restaurer_bouclier.bouclier = 100) := by
  refine ⟨?_, Spaceship.collisionStep_bouclier, fun b => rfl, fun b => rfl,
    fun b => rfl, rfl, rfl, fun s => rfl⟩
  intro keys t w h s asteroids hs
  unfold Spaceship.maj_pos
  exact Spaceship.maj_pos_loop_bouclier_le t asteroids _ hs

/-- Witness for C2: a full-shield ship processed against an empty asteroid
list keeps its shield at most 100. -/
theorem c2_bouclier_clamped_witness :
    ((⟨⟨0, 0⟩, ⟨0, 0⟩, 0, 100, 0⟩ : Spaceship).bouclier ≤ 100) ∧
    (Spaceship.maj_pos ⟨false, false, false, false⟩ 0 800 600
      ⟨⟨0, 0⟩, ⟨0, 0⟩, 0, 100, 0⟩ []).1.bouclier ≤ 100 :=
  ⟨by norm_num,
   c2_bouclier_clamped.1 ⟨false, false, false, false⟩ 0 800 600
     ⟨⟨0, 0⟩, ⟨0, 0⟩, 0, 100, 0⟩ [] (by norm_num)⟩

/-- **C3.** A shield-damaging collision resets the cooldown timestamp to the
current time and applies the decrement; any collision at most 0.5 time-units
after that timestamp deducts nothing and leaves the timestamp alone, so two
shield-damaging collisions within 0.5 time-units deduct only once. -/
theorem c3_cooldown_single_deduction (s : Spaceship) (a0 a1 : Asteroid)
    (t0 t1 : ℝ)
    (hcol : s.position.dist a0.position < 15 + a0.rayon_asteroid)
    (hcd : t0 - s.cooldown > 0.5)
    (hgap : t1 - t0 ≤ 0.5) :
    (Spaceship.collisionStep t0 s a0).1.cooldown = t0 ∧
    (Spaceship.collisionStep t0 s a0).1.bouclier =
      Spaceship.majBouclier s.bouclier a0.taille ∧
    (Spaceship.collisionStep t1 (Spaceship.collisionStep t0 s a0).1 a1).1.bouclier
      = (Spaceship.collisionStep t0 s a0).1.bouclier ∧
    (Spaceship.collisionStep t1 (Spaceship.collisionStep t0 s a0).1 a1).1.cooldown
      = t0 := by
  obtain ⟨hb, hc⟩ := Spaceship.collisionStep_deduct t0 s a0 hcol hcd
  have hgap' : t1 - (Spaceship.collisionStep t0 s a0).1.cooldown ≤ 0.5 := by
    rw [hc]; exact hgap
  obtain ⟨hb2, hc2⟩ := Spaceship.collisionStep_no_deduct t1 _ a1 hgap'
  exact ⟨hc, hb, hb2, by rw [hc2, hc]⟩

/-- Witness for C3: a ship at the origin collides with a small asteroid at
distance 5 at time 1; a second collision attempt at time 1.2 is within the
cooldown. -/
theorem c3_cooldown_single_deduction_witness :
    (Vec2.dist ⟨0, 0⟩ ⟨3, 4⟩ <
      15 + Asteroid.rayon_asteroid ⟨⟨3, 4⟩, ⟨0, 0⟩, ⟨0, 0⟩, 1, 1⟩) ∧
    ((1 : ℝ) - 0 > 0.5) ∧ ((1.2 : ℝ) - 1 ≤ 0.5) ∧
    (Spaceship.collisionStep 1 ⟨⟨0, 0⟩, ⟨0, 0⟩, 0, 100, 0⟩
      ⟨⟨3, 4⟩, ⟨0, 0⟩, ⟨0, 0⟩, 1, 1⟩).1.cooldown = 1 := by
  have hcol : Vec2.dist ⟨0, 0⟩ ⟨3, 4⟩ <
      15 + Asteroid.rayon_asteroid ⟨⟨3, 4⟩, ⟨0, 0⟩, ⟨0, 0⟩, 1, 1⟩ := by
    rw [Vec2.dist_345, Asteroid.rayon_of_taille_un _ rfl]
    norm_num
  refine ⟨hcol, by norm_num, by norm_num, ?_⟩
  exact (c3_cooldown_single_deduction ⟨⟨0, 0⟩, ⟨0, 0⟩, 0, 100, 0⟩
    ⟨⟨3, 4⟩, ⟨0, 0⟩, ⟨0, 0⟩, 1, 1⟩ ⟨⟨3, 4⟩, ⟨0, 0⟩, ⟨0, 0⟩, 1, 1⟩ 1 1.2
    hcol (by norm_num) (by norm_num)).1

/-- **C9.** The ship's screen-edge wrap and the asteroid's screen-edge wrap
are extensionally equal, both on single coordinates and on positions. -/
theorem c9_bound_pos_equal :
    (∀ c max : ℝ, Spaceship.bound_to c max = Asteroid.bound_to c max) ∧
    (∀ (w h : ℝ) (pos : Vec2),
      Spaceship.bound_pos w h pos = Asteroid.bound_pos w h pos) :=
  ⟨fun _ _ => rfl, fun _ _ _ => rfl⟩

/-- **C6.** When the asteroid set becomes empty, the orchestrator increments
the level, spawns `4 + new_level` asteroids, recentres the ship (position to
screen centre, velocity zero, shield and cooldown untouched) and empties the
missile list; the only condition is the emptiness of the asteroid set. -/
theorem c6_level_advance (w h : ℝ) (spawn : ℕ → Asteroid) (niveau : ℤ)
    (missiles : List Missile) (s : Spaceship) (hniv : 0 ≤ niveau) :
    (levelAdvance w h spawn niveau [] missiles s).1 = niveau + 1 ∧
    ((levelAdvance w h spawn niveau [] missiles s).2.1.length : ℤ)
      = 4 + (niveau + 1) ∧
    (levelAdvance w h spawn niveau [] missiles s).2.2.1 = [] ∧
    (levelAdvance w h spawn niveau [] missiles s).2.2.2.position = ⟨w / 2, h / 2⟩ ∧
    (levelAdvance w h spawn niveau [] missiles s).2.2.2.vitesse = ⟨0, 0⟩ ∧
    (levelAdvance w h spawn niveau [] missiles s).2.2.2.bouclier = s.bouclier ∧
    (levelAdvance w h spawn niveau [] missiles s).2.2.2.cooldown = s.cooldown := by
  refine ⟨?_, ?_, ?_, ?_, ?_, ?_, ?_⟩ <;>
    simp [levelAdvance, Spaceship.recentrer]
  omega

/-- Witness for C6 at level 1: the advance yields level `1 + 1`. -/
theorem c6_level_advance_witness :
    (0 : ℤ) ≤ 1 ∧
    (levelAdvance 800 600 (fun _ => ⟨⟨0, 0⟩, ⟨0, 0⟩, ⟨0, 0⟩, 1, 1⟩) 1 [] []
      ⟨⟨0, 0⟩, ⟨0, 0⟩, 0, 100, 0⟩).1 = 1 + 1 :=
  ⟨by norm_num,
   (c6_level_advance 800 600 (fun _ => ⟨⟨0, 0⟩, ⟨0, 0⟩, ⟨0, 0⟩, 1, 1⟩) 1 []
     ⟨⟨0, 0⟩, ⟨0, 0⟩, 0, 100, 0⟩ (by norm_num)).1⟩

/-- **C10.** A frame that starts with shield 0 and no restart confirmation
changes nothing: the whole game state (level, asteroid and missile lists,
ship, pickup) is returned untouched, and the loop exits only on the quit
key. -/
theorem c10_gameover_frozen (st : GameState) (inp : FrameInput) (rng : FrameRng)
    (hb : st.vaisseau.bouclier = 0) (he : inp.enter = false) :
    frame st inp rng = (st, inp.escape) := by
  unfold frame
  rw [if_pos hb, he]
  simp

/-- Witness for C10: a concrete dead-ship state with `Enter` not pressed is
returned exactly as it was. -/
theorem c10_gameover_frozen_witness :
    (⟨1, [], [], ⟨⟨0, 0⟩, ⟨0, 0⟩, 0, 0, 0⟩, ⟨⟨0, 0⟩, false, 0⟩⟩ :
        GameState).vaisseau.bouclier = 0 ∧
    frame ⟨1, [], [], ⟨⟨0, 0⟩, ⟨0, 0⟩, 0, 0, 0⟩, ⟨⟨0, 0⟩, false, 0⟩⟩
      ⟨⟨false, false, false, false⟩, false, false, false, 0, 0, 800, 600⟩
      ⟨⟨0, 0, 0, ⟨0, 0⟩, 0, 0⟩, fun _ => ⟨0, 0⟩,
        fun _ => ⟨⟨0, 0⟩, ⟨0, 0⟩, ⟨0, 0⟩, 1, 1⟩⟩ =
      (⟨1, [], [], ⟨⟨0, 0⟩, ⟨0, 0⟩, 0, 0, 0⟩, ⟨⟨0, 0⟩, false, 0⟩⟩, false) :=
  ⟨rfl,
   c10_gameover_frozen
     ⟨1, [], [], ⟨⟨0, 0⟩, ⟨0, 0⟩, 0, 0, 0⟩, ⟨⟨0, 0⟩, false, 0⟩⟩
     ⟨⟨false, false, false, false⟩, false, false, false, 0, 0, 800, 600⟩
     ⟨⟨0, 0, 0, ⟨0, 0⟩, 0, 0⟩, fun _ => ⟨0, 0⟩,
       fun _ => ⟨⟨0, 0⟩, ⟨0, 0⟩, ⟨0, 0⟩, 1, 1⟩⟩ rfl rfl⟩

/-- **C8.** A visible pickup is never respawned (its position is untouched
and its visibility can only end by timeout), and `verifier_collision`
succeeds exactly when the pickup is visible and within `ship_radius + 15` of
the ship, in which case it only becomes invisible; on failure the pickup is
completely unchanged, and an invisible pickup is never collected. -/
theorem c8_pickup_transitions :
    (∀ (b : Bonus) (dt : ℝ) (sh : ℕ) (rng : BonusRng), b.visible = true →
      (b.update_bonus dt sh rng).position = b.position ∧
      (b.update_bonus dt sh rng).timer = b.timer - dt ∧
      ((b.update_bonus dt sh rng).visible = true ↔ b.timer - dt > 0)) ∧
    (∀ (b : Bonus) (pos : Vec2) (r : ℝ),
      ((b.verifier_collision pos r).1 = true ↔
        (b.visible = true ∧ pos.dist b.position < r + 15))) ∧
    (∀ (b : Bonus) (pos : Vec2) (r : ℝ),
      (b.verifier_collision pos r).1 = false → (b.verifier_collision pos r).2 = b) ∧
    (∀ (b : Bonus) (pos : Vec2) (r : ℝ),
      (b.verifier_collision pos r).1 = true →
        (b.verifier_collision pos r).2 = { b with visible := false }) ∧
    (∀ (b : Bonus) (pos : Vec2) (r : ℝ),
      b.visible = false → (b.verifier_collision pos r).1 = false) := by
  refine ⟨?_, ?_, ?_, ?_, ?_⟩
  · intro b dt sh rng hv
    unfold Bonus.update_bonus
    rw [hv, if_pos rfl]
    dsimp only
    split_ifs with h
    · exact ⟨rfl, rfl, by simpa using not_lt.mpr h⟩
    · exact ⟨rfl, rfl, by simp [hv]; linarith [lt_of_not_le h]⟩
  · intro b pos r
    unfold Bonus.verifier_collision
    by_cases hv : b.visible <;> simp [hv]
    by_cases hd : pos.dist b.position < r + 15 <;> simp [hd]
  · intro b pos r
    unfold Bonus.verifier_collision
    by_cases hv : b.visible <;> simp [hv]
    by_cases hd : pos.dist b.position < r + 15 <;> simp [hd]
  · intro b pos r
    unfold Bonus.verifier_collision
    by_cases hv : b.visible <;> simp [hv]
    by_cases hd : pos.dist b.position < r + 15 <;> simp [hd]
  · intro b pos r hv
    unfold Bonus.verifier_collision
    simp [hv]

/-- Witness for C8: a visible pickup at distance 5 from the ship, against a
collection radius of `15 + 15`, is collected. -/
theorem c8_pickup_transitions_witness :
    ((⟨⟨3, 4⟩, true, 1⟩ : Bonus).visible = true ∧
      Vec2.dist ⟨0, 0⟩ ⟨3, 4⟩ < (15 : ℝ) + 15) ∧
    ((⟨⟨3, 4⟩, true, 1⟩ : Bonus).verifier_collision ⟨0, 0⟩ 15).1 = true := by
  have hd : Vec2.dist ⟨0, 0⟩ ⟨3, 4⟩ < (15 : ℝ) + 15 := by
    rw [Vec2.dist_345]; norm_num
  exact ⟨⟨rfl, hd⟩,
    (c8_pickup_transitions.2.1 ⟨⟨3, 4⟩, true, 1⟩ ⟨0, 0⟩ 15).mpr ⟨rfl, hd⟩⟩

/-- **C7** (counterexample).  An asteroid whose speed is barely above the
stored minimum: friction applies and the resulting speed *undershoots* the
minimum, because the floor check of `appliquer_resistance` is a no-op. -/
theorem c7_friction_counterexample :
    (⟨⟨0, 0⟩, ⟨101 / 100, 0⟩, ⟨1, 0⟩, 1, 1⟩ : Asteroid).speed.length >
      (⟨⟨0, 0⟩, ⟨101 / 100, 0⟩, ⟨1, 0⟩, 1, 1⟩ : Asteroid).speed_min.length ∧
    (⟨⟨0, 0⟩, ⟨101 / 100, 0⟩, ⟨1, 0⟩, 1, 1⟩ :
        Asteroid).appliquer_resistance.speed.length <
      (⟨⟨0, 0⟩, ⟨101 / 100, 0⟩, ⟨1, 0⟩, 1, 1⟩ : Asteroid).speed_min.length := by
  have hgt : (⟨⟨0, 0⟩, ⟨101 / 100, 0⟩, ⟨1, 0⟩, 1, 1⟩ : Asteroid).speed.length >
      (⟨⟨0, 0⟩, ⟨101 / 100, 0⟩, ⟨1, 0⟩, 1, 1⟩ : Asteroid).speed_min.length := by
    show Vec2.length ⟨101 / 100, 0⟩ > Vec2.length ⟨1, 0⟩
    rw [Vec2.length_axis, Vec2.length_axis,
      abs_of_pos (by norm_num : (0:ℝ) < 101 / 100),
      abs_of_pos (by norm_num : (0:ℝ) < 1)]
    norm_num
  refine ⟨hgt, ?_⟩
  rw [Asteroid.appliquer_resistance_speed, if_pos hgt]
  show Vec2.length ((0.98 : ℝ) • ⟨101 / 100, 0⟩) < Vec2.length ⟨1, 0⟩
  rw [Vec2.length_smul, Vec2.length_axis, Vec2.length_axis,
    abs_of_pos (by norm_num : (0:ℝ) < 101 / 100),
    abs_of_pos (by norm_num : (0:ℝ) < 1),
    abs_of_pos (by norm_num : (0:ℝ) < (0.98:ℝ))]
  norm_num

/-- **C7** (amended).  `appliquer_resistance` multiplies the speed by 0.98
exactly when it exceeds the stored minimum and leaves it unchanged otherwise;
since the floor guard is a no-op, the resulting speed may undershoot the
minimum, but never below 0.98 times the minimum speed. -/
theorem c7_friction_amended (a : Asteroid) :
    (a.appliquer_resistance.speed =
      if a.speed.length > a.speed_min.length then (0.98 : ℝ) • a.speed
      else a.speed) ∧
    (a.speed.length > a.speed_min.length →
      a.appliquer_resistance.speed.length ≥ 0.98 * a.speed_min.length) := by
  refine ⟨Asteroid.appliquer_resistance_speed a, ?_⟩
  intro h
  rw [Asteroid.appliquer_resistance_speed, if_pos h, Vec2.length_smul]
  rw [abs_of_pos (by norm_num : (0:ℝ) < 0.98)]
  have := le_of_lt h
  nlinarith [Vec2.length_nonneg a.speed_min]

/-- Witness for C7 (amended): an asteroid at double its minimum speed is
slowed to exactly 0.98 times its speed. -/
theorem c7_friction_amended_witness :
    (⟨⟨0, 0⟩, ⟨2, 0⟩, ⟨1, 0⟩, 1, 1⟩ : Asteroid).speed.length >
      (⟨⟨0, 0⟩, ⟨2, 0⟩, ⟨1, 0⟩, 1, 1⟩ : Asteroid).speed_min.length ∧
    (⟨⟨0, 0⟩, ⟨2, 0⟩, ⟨1, 0⟩, 1, 1⟩ :
        Asteroid).appliquer_resistance.speed.length ≥
      0.98 * (⟨⟨0, 0⟩, ⟨2, 0⟩, ⟨1, 0⟩, 1, 1⟩ : Asteroid).speed_min.length := by
  have hgt : (⟨⟨0, 0⟩, ⟨2, 0⟩, ⟨1, 0⟩, 1, 1⟩ : Asteroid).speed.length >
      (⟨⟨0, 0⟩, ⟨2, 0⟩, ⟨1, 0⟩, 1, 1⟩ : Asteroid).speed_min.length := by
    show Vec2.length ⟨2, 0⟩ > Vec2.length ⟨1, 0⟩
    rw [Vec2.length_axis, Vec2.length_axis,
      abs_of_pos (by norm_num : (0:ℝ) < 2),
      abs_of_pos (by norm_num : (0:ℝ) < 1)]
    norm_num
  exact ⟨hgt, (c7_friction_amended ⟨⟨0, 0⟩, ⟨2, 0⟩, ⟨1, 0⟩, 1, 1⟩).2 hgt⟩

/-- **C4** (code bug).  The bounce of a zero-length collision direction is
*not* guarded in `Asteroid::rebondir`: normalizing the zero vector yields
non-finite (NaN) components (modelled by `none`), and they propagate into the
asteroid's stored velocity. -/
theorem c4_nan_propagates :
    Vec2.normalizeOpt 0 = none ∧
    (∀ speed : Vec2, Asteroid.rebondirOpt speed 0 = none) := by
  constructor
  · unfold Vec2.normalizeOpt
    rw [if_pos rfl]
  · intro speed
    unfold Asteroid.rebondirOpt Vec2.normalizeOpt
    rw [if_pos rfl]
    rfl

end Asteroids
